import Mathlib

/-!
Shallow embedding of the streaming pipeline supervisor of `server.py`
(the Burger repository): the shared `SystemState` with its bounded
connection-history and error logs, the Bluetooth audio source resolver,
the ffmpeg start/stop lifecycle, the RMS decibel-to-meter conversion,
the websocket broadcast pruning, the restart endpoint with exponential
backoff, and the Bluetooth MAC-address validation gates.

Strings are modelled as `List Char`; timestamps as `Nat`; subprocess
handles as `Nat` pids; every interaction with the environment (pactl
output lines, config values, launch success, websocket send outcomes,
bluetoothctl outputs) is an explicit parameter.
-/

namespace AudioBridge

/-- Python `str.split()` with no argument: split on runs of whitespace,
dropping empty pieces.  Accumulator-based scanner. -/
def splitWsAux : List Char → List Char → List (List Char)
  | [], acc => if acc.isEmpty then [] else [acc.reverse]
  | c :: rest, acc =>
    if c.isWhitespace then
      if acc.isEmpty then splitWsAux rest [] else acc.reverse :: splitWsAux rest []
    else splitWsAux rest (c :: acc)

/-- Python `line.split()`. -/
def splitWs (l : List Char) : List (List Char) := splitWsAux l []

/-- Python `line.lower()`. -/
def lineLower (l : List Char) : List Char := l.map Char.toLower

/-- An entry of `state.connection_history`:
`{"timestamp": ..., "type": ..., "details": ...}`. -/
structure HistEvent where
  timestamp : Nat
  etype : List Char
  details : List Char
deriving DecidableEq, Repr

/-- An entry of `state.error_log`:
`{"timestamp": ..., "type": ..., "message": ...}`. -/
structure ErrEntry where
  timestamp : Nat
  etype : List Char
  message : List Char
deriving DecidableEq, Repr

/-- The fields of the shared `SystemState` object of `server.py` that the
streaming pipeline reads or writes (chromecast bookkeeping fields, which no
pipeline operation touches, are omitted).  `ffmpeg_process` holds the pid of
the encoder process when one is running, `active_connections` the ids of the
subscribed websockets. -/
structure SystemState where
  ffmpeg_process : Option Nat
  is_streaming : Bool
  active_connections : List Nat
  current_rms : Int
  bt_connected : Option (List Char)
  current_audio_source : Option (List Char)
  stream_start_time : Option Nat
  connection_history : List HistEvent
  error_log : List ErrEntry
  bt_reconnect_attempts : Nat
  stream_bitrate : List Char
  stream_sample_rate : Nat
  last_error : Option (List Char)
deriving DecidableEq, Repr

/-- `SystemState.__init__` with the configuration defaults
(`bitrate = "192k"`, `sample_rate = 44100`). -/
def initialState : SystemState where
  ffmpeg_process := none
  is_streaming := false
  active_connections := []
  current_rms := 0
  bt_connected := none
  current_audio_source := none
  stream_start_time := none
  connection_history := []
  error_log := []
  bt_reconnect_attempts := 0
  stream_bitrate := "192k".data
  stream_sample_rate := 44100
  last_error := none

/-- Python `xs[-cap:]` applied after an append: keep only the last `cap`
entries when the list has grown beyond `cap`. -/
def keepLast (cap : Nat) (l : List α) : List α :=
  if cap < l.length then l.drop (l.length - cap) else l

/-- `SystemState.add_connection_event`: append the event, then keep only the
last 50 entries. -/
def add_connection_event (now : Nat) (ty details : List Char) (s : SystemState) :
    SystemState :=
  { s with connection_history :=
      keepLast 50 (s.connection_history ++ [⟨now, ty, details⟩]) }

/-- `SystemState.add_error`: append the error, mirror its message into
`last_error`, then keep only the last 100 entries. -/
def add_error (now : Nat) (ty msg : List Char) (s : SystemState) : SystemState :=
  { s with error_log := keepLast 100 (s.error_log ++ [⟨now, ty, msg⟩]),
           last_error := some msg }

example : (add_connection_event 0 ("x".data) ("y".data)
    initialState).connection_history.length = 1 := by decide

example : (add_error 0 ("x".data) ("y".data)
    initialState).last_error = some ("y".data) := by decide

/-- Python `pat in s` on strings: `pat` occurs as a contiguous substring. -/
def containsSeq (pat : List Char) : List Char → Bool
  | [] => pat.isEmpty
  | c :: rest => pat.isPrefixOf (c :: rest) || containsSeq pat rest

/-- The substring `"bluez"` looked for in lowercased `pactl` lines. -/
def bluezPat : List Char := "bluez".data

/-- The substring `"a2dp"` looked for in lowercased `pactl` lines. -/
def a2dpPat : List Char := "a2dp".data

/-- The accumulator loop of `get_bluetooth_audio_source` over the lines of
`pactl list sources short`: a line containing `"bluez"` (case-insensitive)
with at least two whitespace-separated fields contributes its second field;
A2DP lines are inserted at the front of the accumulator
(`bt_sources.insert(0, ...)`), the rest are appended. -/
def collectBtAux : List (List Char) → List (List Char) → List (List Char)
  | [], acc => acc
  | l :: rest, acc =>
    let low := lineLower l
    if containsSeq bluezPat low then
      match (splitWs l).get? 1 with
      | some n =>
        if containsSeq a2dpPat low then collectBtAux rest (n :: acc)
        else collectBtAux rest (acc ++ [n])
      | none => collectBtAux rest acc
    else collectBtAux rest acc

/-- The sink-scanning fallback of `get_bluetooth_audio_source`: the first
`pactl list sinks short` line containing `"bluez"` (case-insensitive) with at
least two fields yields its second field suffixed with `".monitor"`. -/
def findSinkMonitor : List (List Char) → Option (List Char)
  | [] => none
  | l :: rest =>
    if containsSeq bluezPat (lineLower l) then
      match (splitWs l).get? 1 with
      | some n => some (n ++ ".monitor".data)
      | none => findSinkMonitor rest
    else findSinkMonitor rest

/-- `get_bluetooth_audio_source`, applied to the output lines of
`pactl list sources short` and `pactl list sinks short`: the head of the
collected Bluetooth source list if any, else a Bluetooth sink monitor,
else `None`. -/
def get_bluetooth_audio_source (sourceLines sinkLines : List (List Char)) :
    Option (List Char) :=
  match collectBtAux sourceLines [] with
  | n :: _ => some n
  | [] => findSinkMonitor sinkLines

/-- Everything `start_ffmpeg_stream` obtains from outside the shared state:
configuration values, the `pactl` enumeration snapshots, the default-source
query result, the outcome of `subprocess.Popen` (a pid on success, `none`
plus an exception text on failure) and the current time. -/
structure StartEnv where
  preferred : Option (List Char)
  sourceLines : List (List Char)
  sinkLines : List (List Char)
  fallbackDefaultEnabled : Bool
  defaultSource : List Char
  channels : Nat
  sampleRate : Nat
  bitrate : List Char
  launch : Option Nat
  launchErr : List Char
  now : Nat
deriving Repr

/-- The audio source `start_ffmpeg_stream` resolves, as a pure function of
the environment: the preferred source verbatim when configured, else the
enumerated Bluetooth source, else the default source when fallback is
enabled, else nothing. -/
def resolvedInput (env : StartEnv) : Option (List Char) :=
  match env.preferred with
  | some p => some p
  | none =>
    match get_bluetooth_audio_source env.sourceLines env.sinkLines with
    | some b => some b
    | none => if env.fallbackDefaultEnabled then some env.defaultSource else none

/-- The error entry `start_ffmpeg_stream` appends when `subprocess.Popen`
raises. -/
def launchFailEntry (env : StartEnv) : ErrEntry :=
  ⟨env.now, "stream".data, "Failed to start FFmpeg: ".data ++ env.launchErr⟩

/-- `start_ffmpeg_stream`: no-op when an encoder process exists; otherwise
resolve the input source (recording the resolution-path event or error),
record the source in `current_audio_source`, refresh the bitrate and sample
rate from configuration, and launch ffmpeg — on success set the process
handle, `is_streaming`, `stream_start_time`, clear `last_error` and record a
history entry; on launch failure append a stream error and clear the process
handle, `is_streaming` and `stream_start_time`. -/
def start_ffmpeg_stream (env : StartEnv) (s : SystemState) : SystemState :=
  if s.ffmpeg_process.isSome then s
  else
    let res : Option (List Char × SystemState) :=
      match env.preferred with
      | some p => some (p, s)
      | none =>
        match get_bluetooth_audio_source env.sourceLines env.sinkLines with
        | some b =>
          some (b, add_connection_event env.now ("audio_source".data)
            ("Connected to Bluetooth source: ".data ++ b) s)
        | none =>
          if env.fallbackDefaultEnabled then
            some (env.defaultSource, add_error env.now ("bluetooth".data)
              ("No Bluetooth source found, using default audio source".data) s)
          else none
    match res with
    | none =>
      add_error env.now ("bluetooth".data)
        ("No Bluetooth source found and fallback disabled".data) s
    | some (input, s1) =>
      let s2 := { s1 with current_audio_source := some input,
                          stream_bitrate := env.bitrate,
                          stream_sample_rate := env.sampleRate }
      match env.launch with
      | some pid =>
        add_connection_event env.now ("stream".data)
          ("Audio stream started (bitrate: ".data ++ env.bitrate ++
            ", sample rate: ".data ++ String.data (toString env.sampleRate) ++
            "Hz)".data)
          { s2 with ffmpeg_process := some pid,
                    is_streaming := true,
                    stream_start_time := some env.now,
                    last_error := none }
      | none =>
        let s3 := add_error env.now (launchFailEntry env).etype
          (launchFailEntry env).message s2
        { s3 with ffmpeg_process := none,
                  is_streaming := false,
                  stream_start_time := none }

/-- `stop_ffmpeg_stream`: when a process exists, terminate it (external),
clear the handle and record a history entry; in every case clear
`is_streaming` and `stream_start_time`. -/
def stop_ffmpeg_stream (now : Nat) (s : SystemState) : SystemState :=
  let s1 :=
    if s.ffmpeg_process.isSome then
      add_connection_event now ("stream".data)
        ("Audio stream stopped".data) { s with ffmpeg_process := none }
    else s
  { s1 with is_streaming := false, stream_start_time := none }

/-- A call to `start_ffmpeg_stream` (with its environment snapshot) or to
`stop_ffmpeg_stream`. -/
inductive PipelineOp where
  | start (env : StartEnv)
  | stop (now : Nat)

/-- Run a finite sequence of start/stop calls on a state. -/
def runOps : List PipelineOp → SystemState → SystemState
  | [], s => s
  | PipelineOp.start env :: rest, s => runOps rest (start_ffmpeg_stream env s)
  | PipelineOp.stop now :: rest, s => runOps rest (stop_ffmpeg_stream now s)

/-- The linear dB-to-percent expression of `audio_monitor_loop`:
`max(0, min(100, (db_val + 60) * (100 / 60)))`, over exact rationals. -/
def clampLinear (db : ℚ) : ℚ := max 0 (min 100 ((db + 60) * (100 / 60)))

/-- Python `int(...)`: truncation toward zero. -/
def pyInt (q : ℚ) : ℤ := if q < 0 then ⌈q⌉ else ⌊q⌋

/-- The state update `audio_monitor_loop` performs once a dB value has been
parsed out of an RMS diagnostic line: `state.current_rms = int(linear)`. -/
def audio_monitor_update (db : ℚ) (s : SystemState) : SystemState :=
  { s with current_rms := pyInt (clampLinear db) }

/-- One tick of `broadcast_status` as it acts on the subscriber set: every
connection in `active_connections` receives one `send_json(status)` attempt
(in list order); those whose send raised are collected in `to_remove` and
afterwards removed from the list with `list.remove` (first occurrence,
guarded by a membership test). `sendOk` tells which connections' pushes
succeed. Returns the state with the pruned subscriber list together with the
list of connections that were attempted. -/
def broadcast_status (sendOk : Nat → Bool) (s : SystemState) :
    SystemState × List Nat :=
  let toRemove := s.active_connections.filter (fun c => !(sendOk c))
  let remaining := toRemove.foldl
    (fun l c => if c ∈ l then l.erase c else l) s.active_connections
  ({ s with active_connections := remaining }, s.active_connections)

/-- The outcome the `/api/stream/restart` endpoint reports: success with the
number of attempts used, or exhaustion of the retry budget. -/
inductive RestartOutcome where
  | succeeded (attempts : Nat)
  | exhausted
deriving DecidableEq, Repr

/-- Result of the restart endpoint: the reported outcome, the backoff sleeps
performed between failed attempts (in order), and the final shared state. -/
structure RestartResult where
  outcome : RestartOutcome
  delays : List Nat
  finalState : SystemState
deriving Repr

/-- The terminal error message of `api_restart_stream`. -/
def exhaustMsg (maxRetries : Nat) : List Char :=
  "Failed to restart stream after ".data ++
    String.data (toString maxRetries) ++ " attempts".data

/-- The retry loop of `api_restart_stream`
(`for attempt in range(max_retries)`), with `fuel = max_retries - attempt`
as the structural measure: each iteration calls `start_ffmpeg_stream` with
that attempt's environment; on success it records a history entry and
returns `attempt + 1` as the attempts used; otherwise, when
`attempt < max_retries - 1`, it sleeps `retry_delay * 2 ** attempt` and
retries; when the loop ends without success the terminal error is logged. -/
def restartLoop (envs : Nat → StartEnv) (maxRetries retryDelay now : Nat) :
    Nat → Nat → SystemState → RestartResult
  | 0, _, s =>
    { outcome := RestartOutcome.exhausted, delays := [],
      finalState := add_error now ("stream".data) (exhaustMsg maxRetries) s }
  | fuel + 1, attempt, s =>
    let s1 := start_ffmpeg_stream (envs attempt) s
    if s1.is_streaming then
      { outcome := RestartOutcome.succeeded (attempt + 1), delays := [],
        finalState := add_connection_event (envs attempt).now ("stream".data)
          ("Stream restarted successfully (attempt ".data ++
            String.data (toString (attempt + 1)) ++ ")".data) s1 }
    else if attempt + 1 < maxRetries then
      let r := restartLoop envs maxRetries retryDelay now fuel (attempt + 1) s1
      { r with delays := retryDelay * 2 ^ attempt :: r.delays }
    else
      { outcome := RestartOutcome.exhausted, delays := [],
        finalState := add_error now ("stream".data) (exhaustMsg maxRetries) s1 }

/-- `/api/stream/restart` (`api_restart_stream`): stop the stream, settle,
then attempt `start_ffmpeg_stream` up to `max_retries` times with
exponential backoff `retry_delay * 2 ** attempt` between failed attempts.
`envs n` is the environment snapshot seen by attempt `n` (0-indexed). -/
def api_restart_stream (envs : Nat → StartEnv) (maxRetries retryDelay now : Nat)
    (s : SystemState) : RestartResult :=
  restartLoop envs maxRetries retryDelay now maxRetries 0 (stop_ffmpeg_stream now s)

/-- `[0-9A-Fa-f]`. -/
def isHexChar (c : Char) : Bool :=
  (decide ('0' ≤ c) && decide (c ≤ '9')) ||
  (decide ('A' ≤ c) && decide (c ≤ 'F')) ||
  (decide ('a' ≤ c) && decide (c ≤ 'f'))

/-- `([0-9A-Fa-f]{2}:){n}[0-9A-Fa-f]{2}` matched against the whole string. -/
def macGroups : Nat → List Char → Bool
  | 0, [a, b] => isHexChar a && isHexChar b
  | n + 1, a :: b :: c :: rest =>
    isHexChar a && isHexChar b && (c == ':') && macGroups n rest
  | _, _ => false

/-- The pattern the endpoints are documented to validate: exactly six
colon-separated two-digit hexadecimal groups
(`^([0-9A-Fa-f]{2}:){5}[0-9A-Fa-f]{2}$` as a full-string match). -/
def macSixGroups (s : List Char) : Bool := macGroups 5 s

/-- Python `re.match(r'^([0-9A-Fa-f]{2}:){5}[0-9A-Fa-f]{2}$', mac)` as a
boolean: `re.match` anchors at the start, and `$` (without `re.MULTILINE`)
matches at the end of the string or just before one trailing newline, so a
matching MAC followed by a single `'\n'` is also accepted. -/
def pyMacMatch (s : List Char) : Bool :=
  macSixGroups s || ((s.getLast? == some '\n') && macSixGroups s.dropLast)

/-- HTTP-level result of a Bluetooth endpoint call: a 200 response carrying
a `status` field, or a raised `HTTPException`. -/
inductive HttpResult where
  | ok (status : List Char)
  | httpError (code : Nat)
deriving DecidableEq, Repr

/-- Result of one Bluetooth endpoint call: the response, the resulting
shared state, and the `bluetoothctl` shell commands invoked, in order. -/
structure BtCallResult where
  response : HttpResult
  state : SystemState
  invocations : List (List Char)
deriving Repr

/-- Outcomes of the external `bluetoothctl` invocations an endpoint makes:
combined stdout+stderr text, whether the return code was zero, and whether
`asyncio.wait_for` timed out. -/
structure BtToolEnv where
  pairOutput : List Char
  pairRcZero : Bool
  pairTimedOut : Bool
  connectOutput : List Char
  connectRcZero : Bool
  connectTimedOut : Bool
deriving Repr

/-- `POST /api/bt/connect/{mac}` (`api_connect_bt`): reject non-matching
MACs with HTTP 400 before any tool invocation; otherwise run
`bluetoothctl connect {mac}` and report connected/failed/timeout. -/
def api_connect_bt (env : BtToolEnv) (mac : List Char) (s : SystemState) :
    BtCallResult :=
  if !(pyMacMatch mac) then
    { response := HttpResult.httpError 400, state := s, invocations := [] }
  else
    let cmd := "bluetoothctl connect ".data ++ mac
    if env.connectTimedOut then
      { response := HttpResult.ok ("timeout".data), state := s,
        invocations := [cmd] }
    else if containsSeq ("successful".data) (lineLower env.connectOutput)
        || env.connectRcZero then
      { response := HttpResult.ok ("connected".data), state := s,
        invocations := [cmd] }
    else
      { response := HttpResult.ok ("failed".data), state := s,
        invocations := [cmd] }

/-- `POST /api/bt/disconnect/{mac}` (`api_disconnect_bt`): reject
non-matching MACs with HTTP 400 before any tool invocation; otherwise run
`bluetoothctl disconnect {mac}` and report disconnected. -/
def api_disconnect_bt (mac : List Char) (s : SystemState) : BtCallResult :=
  if !(pyMacMatch mac) then
    { response := HttpResult.httpError 400, state := s, invocations := [] }
  else
    { response := HttpResult.ok ("disconnected".data), state := s,
      invocations := ["bluetoothctl disconnect ".data ++ mac] }

/-- `POST /api/bt/pair/{mac}` (`api_pair_bt`): on a non-matching MAC, log an
error and raise HTTP 400 before any tool invocation.  Otherwise record the
pairing attempt, run `bluetoothctl pair {mac}`; when the output shows the
device already exists / pairing successful / a zero return code, trust the
device and run `bluetoothctl connect {mac}`, reporting connected or paired;
otherwise log a pairing failure; a timeout of either `communicate` is caught
and reported with a logged error. -/
def api_pair_bt (env : BtToolEnv) (now : Nat) (mac : List Char)
    (s : SystemState) : BtCallResult :=
  if !(pyMacMatch mac) then
    { response := HttpResult.httpError 400,
      state := add_error now ("bluetooth".data)
        ("Invalid MAC address format".data) s,
      invocations := [] }
  else
    let s1 := add_connection_event now ("bluetooth".data)
      ("Attempting to pair with ".data ++ mac) s
    let pairCmd := "bluetoothctl pair ".data ++ mac
    if env.pairTimedOut then
      { response := HttpResult.ok ("timeout".data),
        state := add_error now ("bluetooth".data)
          ("Pairing timed out for ".data ++ mac ++
            " - device may need to be in pairing mode".data) s1,
        invocations := [pairCmd] }
    else
      let lowOut := lineLower env.pairOutput
      if containsSeq ("already exists".data) lowOut
          || containsSeq ("pairing successful".data) lowOut
          || env.pairRcZero then
        let trustCmd := "bluetoothctl trust ".data ++ mac
        let connectCmd := "bluetoothctl connect ".data ++ mac
        let invs := [pairCmd, trustCmd, connectCmd]
        if env.connectTimedOut then
          { response := HttpResult.ok ("timeout".data),
            state := add_error now ("bluetooth".data)
              ("Pairing timed out for ".data ++ mac ++
                " - device may need to be in pairing mode".data) s1,
            invocations := invs }
        else if containsSeq ("successful".data) (lineLower env.connectOutput)
            || env.connectRcZero then
          { response := HttpResult.ok ("connected".data),
            state := { add_connection_event now ("bluetooth".data)
              ("Successfully paired and connected to ".data ++ mac) s1 with
                last_error := none },
            invocations := invs }
        else
          { response := HttpResult.ok ("paired".data),
            state := add_connection_event now ("bluetooth".data)
              ("Paired with ".data ++ mac ++
                " but connection incomplete".data) s1,
            invocations := invs }
      else
        { response := HttpResult.ok ("failed".data),
          state := add_error now ("bluetooth".data)
            ("Pairing failed with ".data ++ mac) s1,
          invocations := [pairCmd] }

/-! ### Helper lemmas -/

theorem keepLast_length (cap : Nat) (l : List α) :
    (keepLast cap l).length = min cap l.length := by
  unfold keepLast
  split
  · rw [List.length_drop]; omega
  · omega

theorem keepLast_suffix (cap : Nat) (l : List α) :
    (keepLast cap l).IsSuffix l := by
  unfold keepLast
  split
  · exact ⟨l.take (l.length - cap), List.take_append_drop _ _⟩
  · exact List.suffix_refl l

theorem suffix_keepLast {cap : Nat} {t l : List α}
    (h : t.IsSuffix l) (hlen : t.length ≤ cap) : t.IsSuffix (keepLast cap l) := by
  obtain ⟨u, rfl⟩ := h
  unfold keepLast
  split
  · rename_i hc
    refine ⟨u.drop ((u ++ t).length - cap), ?_⟩
    rw [← List.drop_append_of_le_length]
    simp at hc ⊢
    omega
  · exact ⟨u, rfl⟩

theorem suffix_append_singleton {t l : List α} (h : t.IsSuffix l) (x : α) :
    (t ++ [x]).IsSuffix (l ++ [x]) := by
  obtain ⟨u, rfl⟩ := h
  exact ⟨u, by rw [List.append_assoc]⟩

theorem add_connection_event_ffmpeg (now : Nat) (ty d : List Char) (s : SystemState) :
    (add_connection_event now ty d s).ffmpeg_process = s.ffmpeg_process := rfl

theorem add_connection_event_streaming (now : Nat) (ty d : List Char) (s : SystemState) :
    (add_connection_event now ty d s).is_streaming = s.is_streaming := rfl

theorem add_connection_event_errors (now : Nat) (ty d : List Char) (s : SystemState) :
    (add_connection_event now ty d s).error_log = s.error_log := rfl

theorem add_connection_event_source (now : Nat) (ty d : List Char) (s : SystemState) :
    (add_connection_event now ty d s).current_audio_source = s.current_audio_source := rfl

theorem add_error_ffmpeg (now : Nat) (ty m : List Char) (s : SystemState) :
    (add_error now ty m s).ffmpeg_process = s.ffmpeg_process := rfl

theorem add_error_streaming (now : Nat) (ty m : List Char) (s : SystemState) :
    (add_error now ty m s).is_streaming = s.is_streaming := rfl

theorem add_error_history (now : Nat) (ty m : List Char) (s : SystemState) :
    (add_error now ty m s).connection_history = s.connection_history := rfl

theorem add_error_source (now : Nat) (ty m : List Char) (s : SystemState) :
    (add_error now ty m s).current_audio_source = s.current_audio_source := rfl

theorem add_error_log_eq (now : Nat) (ty m : List Char) (s : SystemState) :
    (add_error now ty m s).error_log
      = keepLast 100 (s.error_log ++ [⟨now, ty, m⟩]) := rfl

theorem add_error_suffix {t : List ErrEntry} {s : SystemState}
    (h : t.IsSuffix s.error_log) (hlen : t.length + 1 ≤ 100)
    (now : Nat) (ty m : List Char) :
    List.IsSuffix (t ++ [(⟨now, ty, m⟩ : ErrEntry)])
      (add_error now ty m s).error_log := by
  rw [add_error_log_eq]
  apply suffix_keepLast (suffix_append_singleton h _)
  simpa using hlen

/-! ### C6: bounded FIFO logs -/

/-- C6: after every `add_connection_event` the connection history holds at
most 50 entries, and after every `add_error` the error log holds at most 100
entries; each result is a suffix of the previous log with the new entry
appended (so only the oldest entries are evicted and the order of the
remaining entries is preserved), with length exactly `min cap (old + 1)` (so
nothing is evicted until the capacity is exceeded). -/
theorem c6_bounded_fifo_logs (s : SystemState) (now : Nat) (ty detail msg : List Char) :
    ((add_connection_event now ty detail s).connection_history.length
        = min 50 (s.connection_history.length + 1)
      ∧ ((add_connection_event now ty detail s).connection_history.IsSuffix
          (s.connection_history ++ [⟨now, ty, detail⟩])))
    ∧ ((add_error now ty msg s).error_log.length
        = min 100 (s.error_log.length + 1)
      ∧ ((add_error now ty msg s).error_log.IsSuffix
          (s.error_log ++ [⟨now, ty, msg⟩]))) := by
  refine ⟨⟨?_, ?_⟩, ?_, ?_⟩ <;>
    simp [add_connection_event, add_error, keepLast_length, keepLast_suffix]

/-! ### C7: stop on an already-stopped pipeline -/

/-- C7: calling `stop_ffmpeg_stream` when no encoder process exists appends
no error-log entry and no connection-history entry, and leaves
`is_streaming = false` with `stream_start_time` absent. -/
theorem c7_stop_noop (s : SystemState) (now : Nat) (h : s.ffmpeg_process = none) :
    (stop_ffmpeg_stream now s).error_log = s.error_log
    ∧ (stop_ffmpeg_stream now s).connection_history = s.connection_history
    ∧ (stop_ffmpeg_stream now s).is_streaming = false
    ∧ (stop_ffmpeg_stream now s).stream_start_time = none := by
  simp [stop_ffmpeg_stream, h]

/-- C7 witness: stopping from the freshly initialized (stopped) state. -/
theorem c7_stop_noop_witness :
    initialState.ffmpeg_process = none
    ∧ ((stop_ffmpeg_stream 3 initialState).error_log = initialState.error_log
      ∧ (stop_ffmpeg_stream 3 initialState).connection_history
          = initialState.connection_history
      ∧ (stop_ffmpeg_stream 3 initialState).is_streaming = false
      ∧ (stop_ffmpeg_stream 3 initialState).stream_start_time = none) :=
  ⟨rfl, c7_stop_noop initialState 3 rfl⟩

/-! ### C4: decibel-to-meter conversion -/

/-- C4: the meter level stored for a parsed dB value is the integer part
(Python `int`, truncation) of `clamp(0, 100, (db + 60) * 100/60)`; in
particular −60 dB gives 0, 0 dB gives 100, −30 dB gives 50, anything below
−60 dB gives 0 and anything above 0 dB gives 100. -/
theorem c4_db_meter (s : SystemState) (db : ℚ) :
    (audio_monitor_update db s).current_rms
        = pyInt (max 0 (min 100 ((db + 60) * 100 / 60)))
    ∧ (audio_monitor_update (-60) s).current_rms = 0
    ∧ (audio_monitor_update 0 s).current_rms = 100
    ∧ (audio_monitor_update (-30) s).current_rms = 50
    ∧ (∀ d : ℚ, d < -60 → (audio_monitor_update d s).current_rms = 0)
    ∧ (∀ d : ℚ, 0 < d → (audio_monitor_update d s).current_rms = 100) := by
  refine ⟨?_, ?_, ?_, ?_, ?_, ?_⟩
  · rw [audio_monitor_update]
    norm_num [clampLinear, mul_div_assoc]
  · norm_num [audio_monitor_update, clampLinear, pyInt]
  · norm_num [audio_monitor_update, clampLinear, pyInt]
  · norm_num [audio_monitor_update, clampLinear, pyInt]
  · intro d hd
    have hx : (d + 60) * (100 / 60) < 0 := by
      apply mul_neg_of_neg_of_pos
      · linarith
      · norm_num
    rw [audio_monitor_update]
    simp only [clampLinear]
    rw [min_eq_right (by linarith), max_eq_left (by linarith)]
    norm_num [pyInt]
  · intro d hd
    have hx : (100 : ℚ) ≤ (d + 60) * (100 / 60) := by nlinarith
    rw [audio_monitor_update]
    simp only [clampLinear]
    rw [min_eq_left hx, max_eq_right (by norm_num)]
    norm_num [pyInt]

/-- C4 witness: the clamped regions evaluated at −61 dB and +1 dB. -/
theorem c4_db_meter_witness :
    (audio_monitor_update (-61) initialState).current_rms = 0
    ∧ (audio_monitor_update 1 initialState).current_rms = 100 :=
  ⟨(c4_db_meter initialState 0).2.2.2.2.1 (-61) (by norm_num),
   (c4_db_meter initialState 0).2.2.2.2.2 1 (by norm_num)⟩

/-! ### C8: broadcast failure pruning -/

theorem eraseFold_cons_of_ne (x : Nat) :
    ∀ (rem l : List Nat), (∀ r ∈ rem, r ≠ x) →
      rem.foldl (fun l c => if c ∈ l then l.erase c else l) (x :: l)
        = x :: rem.foldl (fun l c => if c ∈ l then l.erase c else l) l := by
  intro rem
  induction rem with
  | nil => intro l _; rfl
  | cons r rs ih =>
    intro l h
    have hrx : r ≠ x := h r (by simp)
    have hrest : ∀ q ∈ rs, q ≠ x := fun q hq => h q (by simp [hq])
    simp only [List.foldl_cons]
    have hstep : (if r ∈ x :: l then (x :: l).erase r else x :: l)
        = if r ∈ l then x :: l.erase r else x :: l := by
      by_cases hm : r ∈ l
      · have hmem : r ∈ x :: l := by simp [hm]
        rw [if_pos hmem, if_pos hm, List.erase_cons]
        simp [Ne.symm hrx]
      · have hmem : r ∉ x :: l := by simp [hrx, hm]
        rw [if_neg hmem, if_neg hm]
    rw [hstep]
    by_cases hm : r ∈ l
    · simp only [if_pos hm]
      exact ih (l.erase r) hrest
    · simp only [if_neg hm]
      exact ih l hrest

theorem eraseFold_filter (p : Nat → Bool) :
    ∀ l : List Nat,
      (l.filter (fun c => !(p c))).foldl
          (fun r c => if c ∈ r then r.erase c else r) l
        = l.filter p := by
  intro l
  induction l with
  | nil => rfl
  | cons x xs ih =>
    by_cases hp : p x = true
    · have hfilter : (x :: xs).filter (fun c => !(p c))
          = xs.filter (fun c => !(p c)) := by
        simp [List.filter_cons, hp]
      rw [hfilter]
      have hne : ∀ r ∈ xs.filter (fun c => !(p c)), r ≠ x := by
        intro r hr heq
        have hpr := List.of_mem_filter hr
        subst heq
        simp [hp] at hpr
      rw [eraseFold_cons_of_ne x _ xs hne, ih]
      simp [List.filter_cons, hp]
    · have hp' : p x = false := by simpa using hp
      have hfilter : (x :: xs).filter (fun c => !(p c))
          = x :: xs.filter (fun c => !(p c)) := by
        simp [List.filter_cons, hp']
      rw [hfilter]
      simp only [List.foldl_cons]
      have hm : x ∈ x :: xs := by simp
      rw [if_pos hm, List.erase_cons_head, ih]
      simp [List.filter_cons, hp']

/-- C8: in one broadcast tick, every subscriber in the set receives exactly
one push attempt of the snapshot (in set order); afterwards the subscriber
set is exactly the subscribers whose push succeeded — every failing
subscriber has been removed during the tick and every succeeding subscriber
remains, so the removals do not disturb the surviving subscribers. -/
theorem c8_broadcast_prune (sendOk : Nat → Bool) (s : SystemState) :
    (broadcast_status sendOk s).2 = s.active_connections
    ∧ (broadcast_status sendOk s).1.active_connections
        = s.active_connections.filter (fun c => sendOk c)
    ∧ (∀ c ∈ s.active_connections, sendOk c = false →
        c ∉ (broadcast_status sendOk s).1.active_connections)
    ∧ (∀ c ∈ s.active_connections, sendOk c = true →
        c ∈ (broadcast_status sendOk s).1.active_connections) := by
  have hmain : (broadcast_status sendOk s).1.active_connections
      = s.active_connections.filter (fun c => sendOk c) := by
    simp only [broadcast_status]
    exact eraseFold_filter sendOk s.active_connections
  refine ⟨rfl, hmain, ?_, ?_⟩
  · intro c _ hfail
    rw [hmain]
    simp [List.mem_filter, hfail]
  · intro c hc hok
    rw [hmain]
    simp [List.mem_filter, hc, hok]

/-- C8 witness: three subscribers of which the middle one fails. -/
theorem c8_broadcast_prune_witness :
    (broadcast_status (fun c => !(c == 2))
        { initialState with active_connections := [1, 2, 3] }).1.active_connections
      = [1, 3]
    ∧ (2 : Nat) ∉ (broadcast_status (fun c => !(c == 2))
        { initialState with active_connections := [1, 2, 3] }).1.active_connections := by
  have h := c8_broadcast_prune (fun c => !(c == 2))
    { initialState with active_connections := [1, 2, 3] }
  refine ⟨?_, h.2.2.1 2 (by decide) (by decide)⟩
  rw [h.2.1]
  decide

/-! ### C3: streaming/handle coupling invariant -/

/-- The two-sided coupling: `is_streaming` holds exactly when an encoder
process handle is present. -/
def streamInv (s : SystemState) : Prop :=
  s.is_streaming = true ↔ s.ffmpeg_process.isSome = true

theorem streamInv_start (env : StartEnv) {s : SystemState} (h : streamInv s) :
    streamInv (start_ffmpeg_stream env s) := by
  unfold start_ffmpeg_stream
  split
  · exact h
  · cases hpref : env.preferred with
    | some p =>
      cases hl : env.launch <;>
        simp [streamInv, hl, add_connection_event, add_error]
    | none =>
      cases hbt : get_bluetooth_audio_source env.sourceLines env.sinkLines with
      | some b =>
        cases hl : env.launch <;>
          simp [streamInv, hl, add_connection_event, add_error]
      | none =>
        by_cases hf : env.fallbackDefaultEnabled
        · cases hl : env.launch <;>
            simp [streamInv, hf, hl, add_connection_event, add_error]
        · simpa [streamInv, hf, add_error] using h

theorem streamInv_stop (now : Nat) (s : SystemState) :
    streamInv (stop_ffmpeg_stream now s) := by
  unfold stop_ffmpeg_stream
  split
  · simp [streamInv, add_connection_event]
  · rename_i h
    simp only [Option.isSome_iff_exists] at h
    push_neg at h
    simp [streamInv, Option.isSome_iff_exists, h]

theorem runOps_inv : ∀ (ops : List PipelineOp) (s : SystemState),
    streamInv s → streamInv (runOps ops s)
  | [], _, h => h
  | PipelineOp.start env :: rest, _s, h =>
    runOps_inv rest _ (streamInv_start env h)
  | PipelineOp.stop now :: rest, s, _h =>
    runOps_inv rest _ (streamInv_stop now s)

/-- C3: for every finite sequence of `start_ffmpeg_stream` /
`stop_ffmpeg_stream` calls from the initial state, the resulting state never
has `is_streaming = true` with `ffmpeg_process = None`, and never has a
process handle present with `is_streaming = false`. -/
theorem c3_stream_handle_inv (ops : List PipelineOp) :
    ¬ ((runOps ops initialState).is_streaming = true
        ∧ (runOps ops initialState).ffmpeg_process = none)
    ∧ ¬ ((runOps ops initialState).ffmpeg_process ≠ none
        ∧ (runOps ops initialState).is_streaming = false) := by
  have h := runOps_inv ops initialState (by simp [streamInv, initialState])
  rw [streamInv] at h
  constructor
  · rintro ⟨h1, h2⟩
    have := h.mp h1
    rw [h2] at this
    simp at this
  · rintro ⟨h1, h2⟩
    have : (runOps ops initialState).ffmpeg_process.isSome = true := by
      cases hp : (runOps ops initialState).ffmpeg_process with
      | none => exact absurd hp h1
      | some pid => rfl
    rw [h.mpr this] at h2
    simp at h2

/-! ### C1: when the selected source is written -/

/-- A start environment whose source resolution succeeds (a preferred source
is configured) but whose encoder launch fails. -/
def failingLaunchEnv : StartEnv where
  preferred := some ("foo".data)
  sourceLines := []
  sinkLines := []
  fallbackDefaultEnabled := true
  defaultSource := "default".data
  channels := 2
  sampleRate := 44100
  bitrate := "192k".data
  launch := none
  launchErr := "boom".data
  now := 7

/-- C1 counterexample: a `start_ffmpeg_stream` call whose encoder launch
fails nevertheless changes `current_audio_source` — the claim that the
selected source is set only on a successful encoder start is false. -/
theorem c1_selected_source_cex :
    failingLaunchEnv.launch = none
    ∧ (start_ffmpeg_stream failingLaunchEnv initialState).is_streaming = false
    ∧ (start_ffmpeg_stream failingLaunchEnv initialState).current_audio_source
        ≠ initialState.current_audio_source := by
  refine ⟨rfl, ?_, ?_⟩ <;> decide

/-- C1 amended: `current_audio_source` is written by every non-no-op start
call whose source resolution succeeds — before the encoder is launched, so
also when the launch then fails, it holds the freshly resolved source; it is
left unchanged exactly when the call is a no-op (a process already exists)
or when source resolution fails. -/
theorem c1_selected_source_amended (env : StartEnv) (s : SystemState) :
    (s.ffmpeg_process = none →
      (∀ i, resolvedInput env = some i →
        (start_ffmpeg_stream env s).current_audio_source = some i)
      ∧ (resolvedInput env = none →
        (start_ffmpeg_stream env s).current_audio_source = s.current_audio_source))
    ∧ (s.ffmpeg_process.isSome = true →
      start_ffmpeg_stream env s = s) := by
  constructor
  · intro hs
    unfold start_ffmpeg_stream resolvedInput
    cases hpref : env.preferred with
    | some p =>
      cases hl : env.launch <;>
        simp [hs, hl, add_connection_event, add_error]
    | none =>
      cases hbt : get_bluetooth_audio_source env.sourceLines env.sinkLines with
      | some b =>
        cases hl : env.launch <;>
          simp [hs, hl, add_connection_event, add_error]
      | none =>
        by_cases hf : env.fallbackDefaultEnabled
        · cases hl : env.launch <;>
            simp [hs, hf, hl, add_connection_event, add_error]
        · simp [hs, hf, add_error]
  · intro hs
    unfold start_ffmpeg_stream
    simp [hs]

/-- C1 amended witness: on the failing-launch environment the resolved
preferred source is recorded even though the launch fails. -/
theorem c1_selected_source_amended_witness :
    (start_ffmpeg_stream failingLaunchEnv initialState).current_audio_source
      = some ("foo".data) :=
  ((c1_selected_source_amended failingLaunchEnv initialState).1 rfl).1
    ("foo".data) rfl

/-! ### C2: resolver priority order -/

/-- The second field of a `pactl` source line that is both Bluetooth-backed
and A2DP-capable (the lines `get_bluetooth_audio_source` prepends). -/
def a2dpName (l : List Char) : Option (List Char) :=
  if containsSeq bluezPat (lineLower l) && containsSeq a2dpPat (lineLower l) then
    (splitWs l).get? 1
  else none

/-- The second field of a `pactl` source line that is Bluetooth-backed but
not A2DP-capable (the lines `get_bluetooth_audio_source` appends). -/
def plainBtName (l : List Char) : Option (List Char) :=
  if containsSeq bluezPat (lineLower l) && !(containsSeq a2dpPat (lineLower l)) then
    (splitWs l).get? 1
  else none

theorem collectBtAux_eq (lines : List (List Char)) :
    ∀ acc : List (List Char),
      collectBtAux lines acc
        = (lines.filterMap a2dpName).reverse ++ acc
            ++ lines.filterMap plainBtName := by
  induction lines with
  | nil => intro acc; simp [collectBtAux]
  | cons l rest ih =>
    intro acc
    by_cases hb : containsSeq bluezPat (lineLower l) = true
    · cases hn : (splitWs l).get? 1 with
      | some n =>
        have hn' : (splitWs l)[1]? = some n := by
          rw [← List.get?_eq_getElem?]; exact hn
        by_cases ha : containsSeq a2dpPat (lineLower l) = true
        · have h1 : a2dpName l = some n := by simp [a2dpName, hb, ha, hn']
          have h2 : plainBtName l = none := by simp [plainBtName, hb, ha]
          simp only [collectBtAux, hb, hn, ha, if_true, List.filterMap_cons, h1, h2]
          rw [ih (n :: acc)]
          simp
        · have ha' : containsSeq a2dpPat (lineLower l) = false := by simpa using ha
          have h1 : a2dpName l = none := by simp [a2dpName, ha']
          have h2 : plainBtName l = some n := by simp [plainBtName, hb, ha', hn']
          simp only [collectBtAux, hb, hn, ha', if_true, Bool.false_eq_true,
            if_false, List.filterMap_cons, h1, h2]
          rw [ih (acc ++ [n])]
          simp
      | none =>
        have hn' : (splitWs l)[1]? = none := by
          rw [← List.get?_eq_getElem?]; exact hn
        have h1 : a2dpName l = none := by simp [a2dpName, hn']
        have h2 : plainBtName l = none := by simp [plainBtName, hn']
        simp only [collectBtAux, hb, hn, if_true, List.filterMap_cons, h1, h2]
        exact ih acc
    · have hb' : containsSeq bluezPat (lineLower l) = false := by simpa using hb
      have h1 : a2dpName l = none := by simp [a2dpName, hb']
      have h2 : plainBtName l = none := by simp [plainBtName, hb']
      simp only [collectBtAux, hb', Bool.false_eq_true, if_false,
        List.filterMap_cons, h1, h2]
      exact ih acc

/-- Two enumeration lines that are both Bluetooth-backed and A2DP-capable. -/
def a2dpLineOne : List Char := "0 bluez_input.one.a2dp fmt".data

/-- A second A2DP-capable Bluetooth line, enumerated after the first. -/
def a2dpLineTwo : List Char := "1 bluez_input.two.a2dp fmt".data

/-- C2 counterexample: with two A2DP candidates enumerated, the resolver
returns the second (last) one, not the enumeration order's first — because
each A2DP hit is inserted at position 0 of the candidate list. -/
theorem c2_resolver_cex :
    a2dpName a2dpLineOne = some ("bluez_input.one.a2dp".data)
    ∧ a2dpName a2dpLineTwo = some ("bluez_input.two.a2dp".data)
    ∧ get_bluetooth_audio_source [a2dpLineOne, a2dpLineTwo] []
        = some ("bluez_input.two.a2dp".data)
    ∧ ("bluez_input.two.a2dp".data) ≠ ("bluez_input.one.a2dp".data) := by
  refine ⟨?_, ?_, ?_, ?_⟩ <;> decide

/-- C2 amended: a configured preferred source is used verbatim (even when
A2DP sources are enumerated, and regardless of launch outcome); with no
preference, among Bluetooth-backed inputs an A2DP-capable one is chosen over
any non-A2DP one — but when multiple A2DP candidates exist the resolver
picks the LAST in enumeration order, not the first. -/
theorem c2_resolver_amended (env : StartEnv) (s : SystemState) (p : List Char)
    (lines sinks : List (List Char)) :
    (env.preferred = some p → s.ffmpeg_process = none →
      (start_ffmpeg_stream env s).current_audio_source = some p)
    ∧ (lines.filterMap a2dpName ≠ [] →
        get_bluetooth_audio_source lines sinks
          = (lines.filterMap a2dpName).getLast?)
    ∧ (∀ n, lines.filterMap a2dpName ≠ [] →
        get_bluetooth_audio_source lines sinks = some n →
        n ∈ lines.filterMap a2dpName) := by
  have hmain : lines.filterMap a2dpName ≠ [] →
      get_bluetooth_audio_source lines sinks
        = (lines.filterMap a2dpName).getLast? := by
    intro hne
    rcases List.eq_nil_or_concat (lines.filterMap a2dpName) with hnil | ⟨as, a, hA⟩
    · exact absurd hnil hne
    · unfold get_bluetooth_audio_source
      rw [collectBtAux_eq lines [], hA]
      simp [List.getLast?_concat]
  refine ⟨?_, hmain, ?_⟩
  · intro hp hs
    unfold start_ffmpeg_stream
    cases hl : env.launch <;>
      simp [hs, hp, hl, add_connection_event, add_error]
  · intro n hne hres
    rw [hmain hne] at hres
    rcases List.eq_nil_or_concat (lines.filterMap a2dpName) with hnil | ⟨as, a, hA⟩
    · exact absurd hnil hne
    · rw [List.concat_eq_append] at hA
      rw [hA] at hres ⊢
      rw [List.getLast?_concat] at hres
      injection hres with hres
      simp [hres]

/-- C2 amended witness: the preferred source wins on the failing-launch
environment, and on the two-A2DP enumeration the resolver returns the last
A2DP candidate. -/
theorem c2_resolver_amended_witness :
    (start_ffmpeg_stream failingLaunchEnv initialState).current_audio_source
        = some ("foo".data)
    ∧ get_bluetooth_audio_source [a2dpLineOne, a2dpLineTwo] []
        = ([a2dpLineOne, a2dpLineTwo].filterMap a2dpName).getLast? := by
  have h := c2_resolver_amended failingLaunchEnv initialState ("foo".data)
    [a2dpLineOne, a2dpLineTwo] []
  exact ⟨h.1 rfl rfl, h.2.1 (by decide)⟩

/-! ### C5 and C9: restart with exponential backoff -/

theorem stop_ffmpeg_process (now : Nat) (s : SystemState) :
    (stop_ffmpeg_stream now s).ffmpeg_process = none := by
  unfold stop_ffmpeg_stream
  split
  · rfl
  · rename_i h
    cases hp : s.ffmpeg_process with
    | none => simp
    | some pid => rw [hp] at h; simp at h

theorem stop_error_log (now : Nat) (s : SystemState) :
    (stop_ffmpeg_stream now s).error_log = s.error_log := by
  unfold stop_ffmpeg_stream
  split <;> rfl

theorem start_fail_fields {env : StartEnv} {s : SystemState}
    (hs : s.ffmpeg_process = none) (hp : (env.preferred).isSome = true)
    (hl : env.launch = none) :
    (start_ffmpeg_stream env s).is_streaming = false
    ∧ (start_ffmpeg_stream env s).ffmpeg_process = none
    ∧ (start_ffmpeg_stream env s).error_log
        = keepLast 100 (s.error_log ++ [launchFailEntry env]) := by
  obtain ⟨p, hp'⟩ := Option.isSome_iff_exists.mp hp
  unfold start_ffmpeg_stream
  simp [hs, hp', hl, add_error, launchFailEntry]

theorem start_succeed_streaming {env : StartEnv} {s : SystemState}
    (hs : s.ffmpeg_process = none) (hp : (env.preferred).isSome = true)
    {pid : Nat} (hl : env.launch = some pid) :
    (start_ffmpeg_stream env s).is_streaming = true := by
  obtain ⟨p, hp'⟩ := Option.isSome_iff_exists.mp hp
  unfold start_ffmpeg_stream
  simp [hs, hp', hl, add_connection_event]

theorem start_fail_suffix {env : StartEnv} {s : SystemState} {t : List ErrEntry}
    (hs : s.ffmpeg_process = none) (hp : (env.preferred).isSome = true)
    (hl : env.launch = none) (ht : t.IsSuffix s.error_log)
    (hlen : t.length + 1 ≤ 100) :
    List.IsSuffix (t ++ [launchFailEntry env])
      (start_ffmpeg_stream env s).error_log := by
  obtain ⟨-, -, hlog⟩ := start_fail_fields hs hp hl
  rw [hlog]
  apply suffix_keepLast (suffix_append_singleton ht _)
  simpa using hlen

theorem restart_all_fail_spec (envs : Nat → StartEnv) (s : SystemState) (now : Nat)
    (hpref : ∀ n, ((envs n).preferred).isSome = true)
    (hfail : ∀ n, (envs n).launch = none) :
    api_restart_stream envs 3 5 now s
      = { outcome := RestartOutcome.exhausted,
          delays := [5, 10],
          finalState := add_error now ("stream".data) (exhaustMsg 3)
            (start_ffmpeg_stream (envs 2)
              (start_ffmpeg_stream (envs 1)
                (start_ffmpeg_stream (envs 0) (stop_ffmpeg_stream now s)))) } := by
  have h0 := stop_ffmpeg_process now s
  obtain ⟨hstr0, hproc0, -⟩ := start_fail_fields h0 (hpref 0) (hfail 0)
  obtain ⟨hstr1, hproc1, -⟩ := start_fail_fields hproc0 (hpref 1) (hfail 1)
  obtain ⟨hstr2, hproc2, -⟩ := start_fail_fields hproc1 (hpref 2) (hfail 2)
  unfold api_restart_stream
  norm_num [restartLoop, hstr0, hstr1, hstr2]

theorem restart_first_success_spec (envs : Nat → StartEnv) (s : SystemState)
    (now : Nat) (hpref : ((envs 0).preferred).isSome = true)
    {pid : Nat} (hl : (envs 0).launch = some pid) :
    (api_restart_stream envs 3 5 now s).outcome = RestartOutcome.succeeded 1
    ∧ (api_restart_stream envs 3 5 now s).delays = [] := by
  have h0 := stop_ffmpeg_process now s
  have hstr := start_succeed_streaming h0 hpref hl
  unfold api_restart_stream
  norm_num [restartLoop, hstr]

theorem restartLoop_delays_shape (envs : Nat → StartEnv)
    (maxRetries retryDelay now : Nat) :
    ∀ (fuel attempt : Nat) (s : SystemState), ∃ k,
      (restartLoop envs maxRetries retryDelay now fuel attempt s).delays
        = (List.range k).map (fun i => retryDelay * 2 ^ (attempt + i)) := by
  intro fuel
  induction fuel with
  | zero => intro attempt s; exact ⟨0, rfl⟩
  | succ n ih =>
    intro attempt s
    rw [restartLoop]
    by_cases hstr :
        (start_ffmpeg_stream (envs attempt) s).is_streaming = true
    · exact ⟨0, by simp [hstr]⟩
    · have hstr' : (start_ffmpeg_stream (envs attempt) s).is_streaming = false := by
        simpa using hstr
      by_cases hlt : attempt + 1 < maxRetries
      · obtain ⟨k, hk⟩ := ih (attempt + 1) (start_ffmpeg_stream (envs attempt) s)
        refine ⟨k + 1, ?_⟩
        simp only [hstr', Bool.false_eq_true, if_false, hlt, if_true, hk]
        rw [List.range_succ_eq_map, List.map_cons, List.map_map]
        congr 1
        apply List.map_congr_left
        intro i _
        simp only [Function.comp_apply, Nat.succ_eq_add_one]
        have h2 : attempt + 1 + i = attempt + (i + 1) := by omega
        rw [h2]
      · exact ⟨0, by simp [hstr', hlt]⟩

/-- C5: in the restart operation the sleep after failed 0-indexed attempt
`n` is `retry_delay * 2 ** n` (so the recorded delays always form the
sequence `base, 2*base, 4*base, ...`); with `maxAttempts = 3` and
`baseDelay = 5` and every launch failing, the delay before attempt 2 is 5
and the delay before attempt 3 is 10; and when the first attempt succeeds
the operation returns immediately with `attemptsUsed = 1` and no backoff
delay. -/
theorem c5_restart_backoff (envs : Nat → StartEnv) (s : SystemState) (now : Nat)
    (hpref : ∀ n, ((envs n).preferred).isSome = true) :
    (∀ maxRetries retryDelay, ∃ k,
        (api_restart_stream envs maxRetries retryDelay now s).delays
          = (List.range k).map (fun n => retryDelay * 2 ^ n))
    ∧ ((∀ n, (envs n).launch = none) →
        (api_restart_stream envs 3 5 now s).delays = [5, 10]
        ∧ (api_restart_stream envs 3 5 now s).outcome = RestartOutcome.exhausted)
    ∧ (∀ pid, (envs 0).launch = some pid →
        (api_restart_stream envs 3 5 now s).delays = []
        ∧ (api_restart_stream envs 3 5 now s).outcome
            = RestartOutcome.succeeded 1) := by
  refine ⟨?_, ?_, ?_⟩
  · intro maxRetries retryDelay
    obtain ⟨k, hk⟩ := restartLoop_delays_shape envs maxRetries retryDelay now
      maxRetries 0 (stop_ffmpeg_stream now s)
    exact ⟨k, by simpa [api_restart_stream] using hk⟩
  · intro hfail
    rw [restart_all_fail_spec envs s now hpref hfail]
    exact ⟨rfl, rfl⟩
  · intro pid hl
    have h := restart_first_success_spec envs s now (hpref 0) hl
    exact ⟨h.2, h.1⟩

/-- C5 witness: all attempts failing gives delays 5 then 10; a first-attempt
success gives no delay and one attempt used. -/
theorem c5_restart_backoff_witness :
    ((api_restart_stream (fun _ => failingLaunchEnv) 3 5 0 initialState).delays
        = [5, 10]
      ∧ (api_restart_stream (fun _ => failingLaunchEnv) 3 5 0 initialState).outcome
          = RestartOutcome.exhausted)
    ∧ ((api_restart_stream
          (fun _ => { failingLaunchEnv with launch := some 42 }) 3 5 0
          initialState).delays = []
      ∧ (api_restart_stream
          (fun _ => { failingLaunchEnv with launch := some 42 }) 3 5 0
          initialState).outcome = RestartOutcome.succeeded 1) :=
  ⟨(c5_restart_backoff (fun _ => failingLaunchEnv) initialState 0
      (fun _ => rfl)).2.1 (fun _ => rfl),
   (c5_restart_backoff (fun _ => { failingLaunchEnv with launch := some 42 })
      initialState 0 (fun _ => rfl)).2.2 42 rfl⟩

/-- C9: when the encoder launch fails on all three attempts of a restart
request with `maxAttempts = 3`, the endpoint returns the exhausted (error)
outcome — a value, not a crash of the supervising process — the pipeline
ends stopped (`is_streaming = false`, no process handle), and the error log
ends with exactly the three per-attempt launch-failure entries followed by
the terminal restart-exhausted entry. -/
theorem c9_restart_exhausted (envs : Nat → StartEnv) (s : SystemState) (now : Nat)
    (hpref : ∀ n, ((envs n).preferred).isSome = true)
    (hfail : ∀ n, (envs n).launch = none) :
    (api_restart_stream envs 3 5 now s).outcome = RestartOutcome.exhausted
    ∧ (api_restart_stream envs 3 5 now s).finalState.is_streaming = false
    ∧ (api_restart_stream envs 3 5 now s).finalState.ffmpeg_process = none
    ∧ List.IsSuffix
        [launchFailEntry (envs 0), launchFailEntry (envs 1),
          launchFailEntry (envs 2), ⟨now, "stream".data, exhaustMsg 3⟩]
        (api_restart_stream envs 3 5 now s).finalState.error_log := by
  have h0 := stop_ffmpeg_process now s
  obtain ⟨hstr0, hproc0, -⟩ := start_fail_fields h0 (hpref 0) (hfail 0)
  obtain ⟨hstr1, hproc1, -⟩ := start_fail_fields hproc0 (hpref 1) (hfail 1)
  obtain ⟨hstr2, hproc2, -⟩ := start_fail_fields hproc1 (hpref 2) (hfail 2)
  have hnil : List.IsSuffix ([] : List ErrEntry)
      (stop_ffmpeg_stream now s).error_log := List.nil_suffix
  have hsuf0 : List.IsSuffix [launchFailEntry (envs 0)]
      (start_ffmpeg_stream (envs 0) (stop_ffmpeg_stream now s)).error_log := by
    simpa using start_fail_suffix h0 (hpref 0) (hfail 0) hnil (by simp)
  have hsuf1 : List.IsSuffix [launchFailEntry (envs 0), launchFailEntry (envs 1)]
      (start_ffmpeg_stream (envs 1)
        (start_ffmpeg_stream (envs 0) (stop_ffmpeg_stream now s))).error_log := by
    simpa using start_fail_suffix hproc0 (hpref 1) (hfail 1) hsuf0 (by simp)
  have hsuf2 : List.IsSuffix
      [launchFailEntry (envs 0), launchFailEntry (envs 1), launchFailEntry (envs 2)]
      (start_ffmpeg_stream (envs 2) (start_ffmpeg_stream (envs 1)
        (start_ffmpeg_stream (envs 0) (stop_ffmpeg_stream now s)))).error_log := by
    simpa using start_fail_suffix hproc1 (hpref 2) (hfail 2) hsuf1 (by simp)
  have hsuf3 := add_error_suffix hsuf2 (by simp) now ("stream".data) (exhaustMsg 3)
  rw [restart_all_fail_spec envs s now hpref hfail]
  refine ⟨rfl, ?_, ?_, ?_⟩
  · simpa [add_error] using hstr2
  · simpa [add_error] using hproc2
  · simpa using hsuf3

/-- C9 witness: the all-attempts-fail environment exercised concretely. -/
theorem c9_restart_exhausted_witness :
    (api_restart_stream (fun _ => failingLaunchEnv) 3 5 0 initialState).outcome
        = RestartOutcome.exhausted
    ∧ (api_restart_stream (fun _ => failingLaunchEnv) 3 5 0
        initialState).finalState.ffmpeg_process = none :=
  ⟨(c9_restart_exhausted (fun _ => failingLaunchEnv) initialState 0
      (fun _ => rfl) (fun _ => rfl)).1,
   (c9_restart_exhausted (fun _ => failingLaunchEnv) initialState 0
      (fun _ => rfl) (fun _ => rfl)).2.2.1⟩

/-! ### C10: MAC validation gates -/

/-- A bluetoothctl environment in which every invocation fails quietly. -/
def quietBtEnv : BtToolEnv where
  pairOutput := []
  pairRcZero := false
  pairTimedOut := false
  connectOutput := []
  connectRcZero := false
  connectTimedOut := false

/-- C10 counterexample: `"AA:BB:CC:DD:EE:FF\n"` is not six colon-separated
two-digit hex groups, yet the connect endpoint does not reject it — the `$`
of the Python validator also matches just before one trailing newline — and
`bluetoothctl` is invoked with the newline embedded in the command. -/
theorem c10_mac_gate_cex :
    macSixGroups ("AA:BB:CC:DD:EE:FF\n".data) = false
    ∧ (api_connect_bt quietBtEnv ("AA:BB:CC:DD:EE:FF\n".data)
        initialState).invocations
        = ["bluetoothctl connect AA:BB:CC:DD:EE:FF\n".data]
    ∧ (api_connect_bt quietBtEnv ("AA:BB:CC:DD:EE:FF\n".data)
        initialState).response ≠ HttpResult.httpError 400 := by
  refine ⟨?_, ?_, ?_⟩ <;> decide

/-- C10 amended: every MAC string the Python validator rejects — i.e. one
that neither is six colon-separated two-digit hex groups nor such a match
followed by a single trailing newline (the extra case `$` admits) — is
refused by pair, connect and disconnect with HTTP 400, with no
`bluetoothctl` invocation and the encoder/streaming state unchanged (the
pair endpoint additionally logs the validation error). -/
theorem c10_mac_gate_amended (env : BtToolEnv) (now : Nat) (mac : List Char)
    (s : SystemState) (h : pyMacMatch mac = false) :
    ((api_pair_bt env now mac s).response = HttpResult.httpError 400
      ∧ (api_pair_bt env now mac s).invocations = []
      ∧ (api_pair_bt env now mac s).state.is_streaming = s.is_streaming
      ∧ (api_pair_bt env now mac s).state.ffmpeg_process = s.ffmpeg_process
      ∧ (api_pair_bt env now mac s).state.current_audio_source
          = s.current_audio_source
      ∧ (api_pair_bt env now mac s).state.stream_start_time = s.stream_start_time)
    ∧ ((api_connect_bt env mac s).response = HttpResult.httpError 400
      ∧ (api_connect_bt env mac s).invocations = []
      ∧ (api_connect_bt env mac s).state = s)
    ∧ ((api_disconnect_bt mac s).response = HttpResult.httpError 400
      ∧ (api_disconnect_bt mac s).invocations = []
      ∧ (api_disconnect_bt mac s).state = s) := by
  refine ⟨⟨?_, ?_, ?_, ?_, ?_, ?_⟩, ⟨?_, ?_, ?_⟩, ?_, ?_, ?_⟩ <;>
    simp [api_pair_bt, api_connect_bt, api_disconnect_bt, h, add_error]

/-- C10 amended witness: a plainly malformed MAC refused by all three
endpoints without any tool invocation. -/
theorem c10_mac_gate_amended_witness :
    (api_connect_bt quietBtEnv ("nonsense".data) initialState).response
        = HttpResult.httpError 400
    ∧ (api_connect_bt quietBtEnv ("nonsense".data) initialState).invocations = []
    ∧ (api_pair_bt quietBtEnv 0 ("nonsense".data) initialState).invocations = [] :=
  ⟨(c10_mac_gate_amended quietBtEnv 0 ("nonsense".data) initialState
      (by decide)).2.1.1,
   (c10_mac_gate_amended quietBtEnv 0 ("nonsense".data) initialState
      (by decide)).2.1.2.1,
   (c10_mac_gate_amended quietBtEnv 0 ("nonsense".data) initialState
      (by decide)).1.2.1⟩

end AudioBridge
